import Mathlib

/-!
# Verification of the price-tracker engine

A shallow embedding of the price-monitoring engine of the repository
(files `main.py` and `price_tracker_bot.py`): the threshold/delta
decision logic inlined in `check_single_product` / `check_prices`, the
scraping pipeline `scrape_product`, the price-history store
(`add_price_history`, latest-price lookup), the product table insert
paths (`add_product_to_db` for the MongoDB variant, the SQLite insert
of `main.py`), and the `App.add_product` flow.

Prices are modelled as exact rationals (`ℚ`): the claims under study
are order comparisons and equalities of parsed decimal numerals, all of
which the source computes on the parsed values directly.  Timestamps
are modelled as naturals supplied by the caller in check order, which
the source realises with `datetime.now()` strings that are
non-decreasing over a run.
-/

namespace PriceTracker

/-- The four notification kinds the engine can emit.  They correspond to
the four `send_notification` call sites of `check_single_product`
(`price_tracker_bot.py` lines 302-309) and `check_prices`
(`main.py` lines 178-186). -/
inductive Event
  | priceDropAlert
  | priceIncreaseAlert
  | priceDrop
  | priceIncrease
  deriving DecidableEq

/-- The list of notification events dispatched by the `if`/`elif` chain of
`check_single_product` (`price_tracker_bot.py` lines 302-309; the chain in
`main.py` lines 178-186 nests the two delta branches under a single
`elif last_price is not None:` and is equivalent).  Each branch performs
exactly one `send_notification` call; the chain is embedded as nested
conditionals, so the list records every dispatched event in order.
`last` is `none` when the product has no prior observation (the
`"N/A"` / `None` case of the source). -/
def emitted_events (low high : ℚ) (last : Option ℚ) (new : ℚ) : List Event :=
  if new ≤ low then [Event.priceDropAlert]
  else if new ≥ high ∧ high > 0 then [Event.priceIncreaseAlert]
  else
    match last with
    | none => []
    | some lp =>
      if new < lp then [Event.priceDrop]
      else if new > lp then [Event.priceIncrease]
      else []

/-- The decision function exactly as §4.4 of the specification words it:
rules numbered 1-5, first match wins, returning at most one event. -/
def decide_spec (low high : ℚ) (last : Option ℚ) (new : ℚ) : Option Event :=
  if new ≤ low then some Event.priceDropAlert
  else if high > 0 ∧ new ≥ high then some Event.priceIncreaseAlert
  else if (∃ lp, last = some lp ∧ new < lp) then some Event.priceDrop
  else if (∃ lp, last = some lp ∧ new > lp) then some Event.priceIncrease
  else none

instance (last : Option ℚ) (new : ℚ) :
    Decidable (∃ lp, last = some lp ∧ new < lp) := by
  cases last with
  | none => exact .isFalse (by simp)
  | some lp => exact decidable_of_iff (new < lp) (by simp)

instance (last : Option ℚ) (new : ℚ) :
    Decidable (∃ lp, last = some lp ∧ new > lp) := by
  cases last with
  | none => exact .isFalse (by simp)
  | some lp => exact decidable_of_iff (new > lp) (by simp)

/-- C1: the code's `if`/`elif` chain realises exactly the specification's
priority order 1-5 (first match wins), and consequently at most one
notification event is dispatched for any combination of thresholds,
last observed price and new price. -/
theorem emitted_events_follows_priority_order
    (low high : ℚ) (last : Option ℚ) (new : ℚ) :
    emitted_events low high last new = (decide_spec low high last new).toList ∧
    (emitted_events low high last new).length ≤ 1 := by
  unfold emitted_events decide_spec
  cases last with
  | none => split_ifs <;> simp_all
  | some lp =>
    rcases lt_trichotomy new lp with h | h | h <;>
      simp only [not_lt.2 h.le, if_neg, if_pos, h, lt_irrefl, not_lt.2 le_rfl,
        gt_iff_lt] <;>
      split_ifs <;> simp_all <;> linarith

/-!
## Scraping pipeline

`scrape_product` (`price_tracker_bot.py` lines 211-270, identical in
`main.py` lines 80-139) fetches the page, routes on the URL by substring
match (Amazon with two alias domains, then Flipkart, then Myntra), runs
the site's name and price selectors, normalizes the price string
(`replace(',', '')` then `strip()`), extracts the first decimal numeral
with the pattern `\$?(\d+\.?\d*)` and converts it to a number.  The
fetch and the parsed page are abstracted by `FetchOutcome`: a fetch is
either a failure (any transport error, timeout or non-success status,
all collapsed by the two `except` clauses) or a success carrying the
page as a map from CSS selector to the located node's stripped text
source (`select_one` followed by `get_text`). -/

/-- Python `str.strip()` on a list of characters. -/
def pyStrip (cs : List Char) : List Char :=
  ((cs.dropWhile Char.isWhitespace).reverse.dropWhile Char.isWhitespace).reverse

/-- Substring containment, modelling Python's `pat in s`. -/
def containsSub (pat : List Char) : List Char → Bool
  | [] => pat.isEmpty
  | s@(_ :: cs) => pat.isPrefixOf s || containsSub pat cs

def strContains (s pat : String) : Bool :=
  containsSub pat.data s.data

/-- Value of a digit string, as `int` conversion of its characters. -/
def digitsToNat (ds : List Char) : Nat :=
  ds.foldl (fun acc c => 10 * acc + (c.toNat - 48)) 0

/-- The fractional digits of a matched numeral: the characters after the
optional dot (empty when the group is a bare integer). -/
def fracDigits : List Char → List Char
  | '.' :: f => f
  | _ => []

/-- Python `float` applied to a regex group of shape `\d+\.?\d*`,
modelled exactly (as a rational rather than a binary double): the value
of `ip.fp` is `(ip * 10 ^ k + fp) / 10 ^ k` with `k` the number of
fractional digits. -/
def parseDecimal (g : List Char) : ℚ :=
  mkRat
    (digitsToNat (g.takeWhile Char.isDigit) *
        10 ^ (fracDigits (g.dropWhile Char.isDigit)).length +
      digitsToNat (fracDigits (g.dropWhile Char.isDigit)))
    (10 ^ (fracDigits (g.dropWhile Char.isDigit)).length)

/-- Group 1 of the pattern `\$?(\d+\.?\d*)` when a match starts at the
head of `cs` (head is a digit): the maximal digit run, then an optional
dot, then the following maximal digit run. -/
def numGroup (cs : List Char) : List Char :=
  let d1 := cs.takeWhile Char.isDigit
  match cs.dropWhile Char.isDigit with
  | '.' :: rest => d1 ++ ['.'] ++ rest.takeWhile Char.isDigit
  | _ => d1

/-- `re.search` of `\$?(\d+\.?\d*)`: the leftmost match's group 1.
A match can start at a position holding a digit, or at a dollar sign
immediately followed by a digit (the group is the same either way). -/
def searchNumeral : List Char → Option (List Char)
  | [] => none
  | c :: cs =>
    if c.isDigit then some (numGroup (c :: cs))
    else if c == '$' && cs.head?.elim false Char.isDigit then
      some (numGroup cs)
    else searchNumeral cs

/-- The price-string pipeline of each site branch:
`price_elem.get_text().replace(',', '').strip()`, then the regex search,
then `float` on group 1.  Returns `none` when the numeral pattern does
not match. -/
def extract_price (raw : String) : Option ℚ :=
  (searchNumeral (pyStrip (raw.data.filter (· != ',')))).map parseDecimal

/-- The three site families of the `if`/`elif` routing chain. -/
inductive Site
  | amazon
  | flipkart
  | myntra
  deriving DecidableEq

/-- URL routing: substring tests in source order (`amazon.in` or
`amazon.com` first, then `flipkart.com`, then `myntra.com`). -/
def site_of_url (url : String) : Option Site :=
  if strContains url "amazon.in" || strContains url "amazon.com" then
    some Site.amazon
  else if strContains url "flipkart.com" then some Site.flipkart
  else if strContains url "myntra.com" then some Site.myntra
  else none

/-- The name selector of each site branch. -/
def name_selector : Site → String
  | Site.amazon => "#productTitle"
  | Site.flipkart => "span.B_NuCI"
  | Site.myntra => ".pdp-title"

/-- The price selector of each site branch. -/
def price_selector : Site → String
  | Site.amazon => ".a-price-whole, #corePrice_feature_div .a-offscreen"
  | Site.flipkart => "div._30jeq3, div._16Jk6d ._30jeq3"
  | Site.myntra => ".pdp-price .pdp-price-amount"

/-- Outcome of `requests.get` + `raise_for_status` + `BeautifulSoup`:
either any exception (both `except` clauses) or the parsed page,
abstracted as the selector-to-text map. -/
inductive FetchOutcome
  | success (page : String → Option String)
  | failure

/-- `scrape_product(url)`: fetch, route by domain, run both selectors,
parse the numeral; every failure at any stage yields the failure value
(`(None, None)`, modelled as `none`).  The function is total: the
source wraps the whole body in `try`/`except` returning `None, None`. -/
def scrape_product (fetch : String → FetchOutcome) (url : String) :
    Option (String × ℚ) :=
  match fetch url with
  | FetchOutcome.failure => none
  | FetchOutcome.success page =>
    match site_of_url url with
    | none => none
    | some site =>
      match page (name_selector site), page (price_selector site) with
      | some nameText, some priceText =>
        match extract_price priceText with
        | some price => some ((pyStrip nameText.data).asString, price)
        | none => none
      | some _, none => none
      | none, _ => none

/-- C4: whenever the new price is at or below the low threshold, the
first branch of the decision chain fires, so a Price Drop Alert is the
event dispatched, whatever the high threshold and the last observed
price are. -/
theorem low_threshold_always_drop_alert
    (low high : ℚ) (last : Option ℚ) (new : ℚ) (h : new ≤ low) :
    emitted_events low high last new = [Event.priceDropAlert] := by
  unfold emitted_events
  rw [if_pos h]

/-- Witness for C4 at the spec scenario `low=100, high=0`, prior `120`,
new price `95`. -/
theorem low_threshold_always_drop_alert_witness :
    (95 : ℚ) ≤ 100 ∧
      emitted_events 100 0 (some 120) 95 = [Event.priceDropAlert] :=
  ⟨by norm_num,
   low_threshold_always_drop_alert 100 0 (some 120) 95 (by norm_num)⟩

theorem parseDecimal_nonneg (g : List Char) : 0 ≤ parseDecimal g := by
  unfold parseDecimal
  rw [Rat.mkRat_eq_div]
  positivity

theorem extract_price_nonneg (t : String) (q : ℚ)
    (h : extract_price t = some q) : 0 ≤ q := by
  unfold extract_price at h
  rw [Option.map_eq_some'] at h
  obtain ⟨g, _, rfl⟩ := h
  exact parseDecimal_nonneg g

/-- A parsed Amazon page whose price node's text is the numeral `0`. -/
def page_zero : String → Option String := fun sel =>
  if sel = "#productTitle" then some "Widget"
  else if sel = ".a-price-whole, #corePrice_feature_div .a-offscreen" then
    some "0"
  else none

/-- C6 counterexample: the numeral pattern `\$?(\d+\.?\d*)` also matches
the numeral `0`, and `scrape_product` performs no positivity check, so a
successful extraction can carry the price `0` — the claimed strict
positivity of successful results fails. -/
theorem scrape_product_price_zero_possible :
    scrape_product (fun _ => FetchOutcome.success page_zero)
        "https://www.amazon.com/item" = some ("Widget", (0 : ℚ)) ∧
      ¬ ((0 : ℚ) > 0) := by
  refine ⟨by decide, by norm_num⟩

/-- C6 (amended): a successful scrape always carries a nonnegative
price — the numeral pattern only matches unsigned decimals — but not
necessarily a strictly positive one. -/
theorem scrape_product_price_nonneg (fetch : String → FetchOutcome)
    (url n : String) (p : ℚ)
    (h : scrape_product fetch url = some (n, p)) : 0 ≤ p := by
  unfold scrape_product at h
  cases hf : fetch url with
  | failure => rw [hf] at h; cases h
  | success page =>
    rw [hf] at h; dsimp only at h
    cases hs : site_of_url url with
    | none => rw [hs] at h; cases h
    | some site =>
      rw [hs] at h; dsimp only at h
      cases hn : page (name_selector site) with
      | none => rw [hn] at h; cases h
      | some nameText =>
        rw [hn] at h
        cases hp : page (price_selector site) with
        | none => rw [hp] at h; cases h
        | some priceText =>
          rw [hp] at h; dsimp only at h
          cases he : extract_price priceText with
          | none => rw [he] at h; cases h
          | some price =>
            rw [he] at h; dsimp only at h
            simp only [Option.some.injEq, Prod.mk.injEq] at h
            obtain ⟨-, rfl⟩ := h
            exact extract_price_nonneg _ _ he

/-- A parsed Amazon page whose price node's text is the numeral `5`,
used to instantiate the nonnegativity theorem. -/
def page_five : String → Option String := fun sel =>
  if sel = "#productTitle" then some "Widget"
  else if sel = ".a-price-whole, #corePrice_feature_div .a-offscreen" then
    some "5"
  else none

/-- Witness for the amended C6 at a concrete successful scrape. -/
theorem scrape_product_price_nonneg_witness :
    scrape_product (fun _ => FetchOutcome.success page_five)
        "https://www.amazon.com/item" = some ("Widget", (5 : ℚ)) ∧
      (0 : ℚ) ≤ 5 :=
  ⟨by decide,
   scrape_product_price_nonneg (fun _ => FetchOutcome.success page_five)
     "https://www.amazon.com/item" "Widget" 5 (by decide)⟩

/-- C7: `scrape_product` is total (it is a Lean function, mirroring the
source's catch-all `try`/`except` returning `None, None`), and it
returns the failure value exactly when one of the failure modes occurs:
the fetch fails (transport error, timeout or non-success status), no
domain matches the URL, a selector locates no node, or the numeral
cannot be parsed from the price text. -/
theorem scrape_product_failure_modes
    (fetch : String → FetchOutcome) (url : String) :
    scrape_product fetch url = none ↔
      fetch url = FetchOutcome.failure ∨
      ∃ page, fetch url = FetchOutcome.success page ∧
        (site_of_url url = none ∨
         ∃ site, site_of_url url = some site ∧
           (page (name_selector site) = none ∨
            page (price_selector site) = none ∨
            ∃ t, page (price_selector site) = some t ∧
              extract_price t = none)) := by
  unfold scrape_product
  cases hf : fetch url with
  | failure => simp
  | success page =>
    simp only [FetchOutcome.success.injEq, exists_eq_left', reduceCtorEq,
      false_or]
    cases hs : site_of_url url with
    | none => simp
    | some site =>
      simp only [Option.some.injEq, exists_eq_left', reduceCtorEq, false_or]
      cases hn : page (name_selector site) with
      | none => simp
      | some nameText =>
        cases hp : page (price_selector site) with
        | none => simp
        | some priceText =>
          simp only [Option.some.injEq, exists_eq_left', reduceCtorEq,
            false_or]
          cases he : extract_price priceText with
          | none => simp
          | some price => simp [he]

/-!
## History store and check orchestration

`add_price_history` (`price_tracker_bot.py` lines 172-181) appends one
row to the `price_history` collection; `get_db_client()` failure makes
it log and write nothing, modelled by the `avail` flag.  The latest
price of a product is the row of maximal timestamp
(`find_one(..., sort=[("timestamp", -1)])` in the MongoDB variant,
`ORDER BY timestamp DESC LIMIT 1` in the SQLite variant).
`check_single_product` (lines 288-312) and `check_prices`
(lines 314-323) drive decision, notifier dispatch and the history
write per product; the batch is modelled as its per-product task list
in sequence (`main.py`'s loop is literally sequential; the thread-pool
variant imposes no cross-product data flow). -/

/-- One row of the `price_history` collection/table. -/
structure HistEntry where
  product_id : Nat
  price : ℚ
  timestamp : Nat
  deriving DecidableEq

/-- `add_price_history(product_id, price)`: one inserted row carrying
the caller's product id, the price, and the current time.  `avail`
models whether `get_db_client()` returned a connection; on failure the
source logs and inserts nothing. -/
def add_price_history (avail : Bool) (h : List HistEntry) (pid : Nat)
    (price : ℚ) (ts : Nat) : List HistEntry :=
  if avail then h ++ [⟨pid, price, ts⟩] else h

/-- Latest observed price of a product: a row of maximal timestamp among
the product's rows (the later-inserted row on timestamp ties), `none`
when the product has no history. -/
def latest (h : List HistEntry) (pid : Nat) : Option ℚ :=
  ((h.filter (fun e => e.product_id == pid)).foldl
    (fun acc e =>
      match acc with
      | none => some e
      | some b => if b.timestamp ≤ e.timestamp then some e else some b)
    none).map HistEntry.price

/-- One element of the product list `get_user_products` hands to
`check_prices`: the stored product document together with its latest
recorded price (`"N/A"`, modelled as `none`, when it has no history). -/
structure Product where
  pid : Nat
  url : String
  name : String
  low_price : ℚ
  high_price : ℚ
  latest_price : Option ℚ

/-- `check_single_product(product)`: scrape; on failure return at once
(no notification, no history write); on success dispatch the decision
chain's event, if any, to the notifier and append the new price to the
history.  `deliver` models each `send_notification` call's outcome —
the notifier swallows its own exceptions, so it yields a success flag
instead of raising — and `store` models the history store connection.
Returns the new history and the dispatched events with their delivery
flags. -/
def check_single_product (store : Bool)
    (scrape : String → Option (String × ℚ)) (deliver : Event → Bool)
    (ts : Nat) (h : List HistEntry) (p : Product) :
    List HistEntry × List (Event × Bool) :=
  match scrape p.url with
  | none => (h, [])
  | some (_, current_price) =>
    (add_price_history store h p.pid current_price ts,
     (emitted_events p.low_price p.high_price p.latest_price
        current_price).map (fun e => (e, deliver e)))

/-- `check_prices(user_id)` over an already-loaded product list: every
product's task runs; outcomes are aggregated (history threaded through,
notifications tagged with the product id). -/
def check_prices (store : Bool) (scrape : String → Option (String × ℚ))
    (deliver : Event → Bool) (ts : Nat) :
    List HistEntry → List Product →
      List HistEntry × List (Nat × Event × Bool)
  | h, [] => (h, [])
  | h, p :: ps =>
    let r := check_single_product store scrape deliver ts h p
    let rest := check_prices store scrape deliver ts r.1 ps
    (rest.1, r.2.map (fun eb => (p.pid, eb.1, eb.2)) ++ rest.2)

/-- C2: for every product whose extraction succeeds, the new price is
appended to the history whatever event (if any) the decision chain
emitted and whatever the notifier did with it — delivery failures are
swallowed inside `send_notification`, and the history write at the end
of `check_single_product` still executes. -/
theorem history_append_independent_of_notifier
    (scrape : String → Option (String × ℚ)) (deliver : Event → Bool)
    (ts : Nat) (h : List HistEntry) (p : Product) (nm : String) (pr : ℚ)
    (hs : scrape p.url = some (nm, pr)) :
    (check_single_product true scrape deliver ts h p).1 =
      h ++ [⟨p.pid, pr, ts⟩] := by
  unfold check_single_product
  rw [hs]
  rfl

/-- Witness for C2: a concrete product whose scrape succeeds at price 7,
with a notifier that fails every delivery; the price is appended all
the same. -/
theorem history_append_independent_of_notifier_witness :
    (fun _ : String => some ("P", (7 : ℚ))) "u" = some ("P", (7 : ℚ)) ∧
      (check_single_product true (fun _ => some ("P", (7 : ℚ)))
          (fun _ => false) 3 [] ⟨1, "u", "P", 1, 0, some 9⟩).1 =
        [] ++ [⟨1, 7, 3⟩] :=
  ⟨rfl,
   history_append_independent_of_notifier (fun _ => some ("P", (7 : ℚ)))
     (fun _ => false) 3 [] ⟨1, "u", "P", 1, 0, some 9⟩ "P" 7 rfl⟩

theorem check_prices_history_eq
    (scrape : String → Option (String × ℚ)) (deliver : Event → Bool)
    (ts : Nat) :
    ∀ (ps : List Product) (h : List HistEntry),
      (check_prices true scrape deliver ts h ps).1 =
        h ++ ps.filterMap
          (fun p => (scrape p.url).map
            (fun r => HistEntry.mk p.pid r.2 ts)) := by
  intro ps
  induction ps with
  | nil => intro h; simp [check_prices]
  | cons p ps ih =>
    intro h
    cases hsp : scrape p.url with
    | none =>
      simp [check_prices, check_single_product, hsp, ih]
    | some r =>
      obtain ⟨nm, pr⟩ := r
      simp [check_prices, check_single_product, add_price_history, hsp, ih]

theorem check_prices_log_sources
    (scrape : String → Option (String × ℚ)) (deliver : Event → Bool)
    (ts : Nat) :
    ∀ (ps : List Product) (h : List HistEntry) (q : Nat × Event × Bool),
      q ∈ (check_prices true scrape deliver ts h ps).2 →
      ∃ p ∈ ps, p.pid = q.1 ∧ (scrape p.url).isSome := by
  intro ps
  induction ps with
  | nil => intro h q hq; simp [check_prices] at hq
  | cons p ps ih =>
    intro h q hq
    simp only [check_prices, List.mem_append] at hq
    rcases hq with hq | hq
    · refine ⟨p, List.mem_cons_self p ps, ?_⟩
      cases hsp : scrape p.url with
      | none =>
        rw [check_single_product, hsp] at hq
        simp at hq
      | some r =>
        obtain ⟨nm, pr⟩ := r
        rw [check_single_product, hsp] at hq
        simp only [List.mem_map] at hq
        obtain ⟨eb, -, rfl⟩ := hq
        simp [hsp]
    · obtain ⟨p2, hp2, hrest⟩ := ih _ q hq
      exact ⟨p2, List.mem_cons_of_mem p hp2, hrest⟩

theorem filterMap_length_add_countP_none {α β : Type} (f : α → Option β) :
    ∀ l : List α,
      (l.filterMap f).length + l.countP (fun a => (f a).isNone) =
        l.length := by
  intro l
  induction l with
  | nil => simp
  | cons a l ih =>
    cases hfa : f a with
    | none => simp [List.filterMap_cons, List.countP_cons, hfa]; omega
    | some b => simp [List.filterMap_cons, List.countP_cons, hfa]; omega

/-- C3: a single failing extraction in a batch never aborts the batch:
the failing product's task performs no notification dispatch and no
history append, every notification in the batch log comes from a
product whose extraction succeeded, and when exactly one of N products
fails the batch still appends exactly N-1 history rows. -/
theorem one_failing_product_never_aborts_batch
    (scrape : String → Option (String × ℚ)) (deliver : Event → Bool)
    (ts : Nat) (h0 : List HistEntry) (products : List Product)
    (hone : products.countP (fun p => (scrape p.url).isNone) = 1) :
    (∀ p : Product, scrape p.url = none →
      check_single_product true scrape deliver ts h0 p = (h0, [])) ∧
    (check_prices true scrape deliver ts h0 products).1.length =
      h0.length + (products.length - 1) ∧
    (∀ q ∈ (check_prices true scrape deliver ts h0 products).2,
      ∃ p ∈ products, p.pid = q.1 ∧ (scrape p.url).isSome) := by
  refine ⟨?_, ?_, ?_⟩
  · intro p hp
    unfold check_single_product
    rw [hp]
  · rw [check_prices_history_eq scrape deliver ts products h0,
      List.length_append]
    have hlen := filterMap_length_add_countP_none
      (fun p : Product => (scrape p.url).map
        (fun r => HistEntry.mk p.pid r.2 ts)) products
    have hcnt : products.countP
        (fun p : Product => ((scrape p.url).map
          (fun r => HistEntry.mk p.pid r.2 ts)).isNone) =
        products.countP (fun p => (scrape p.url).isNone) := by
      apply List.countP_congr
      intro p _
      cases scrape p.url <;> simp
    rw [hcnt, hone] at hlen
    omega
  · exact check_prices_log_sources scrape deliver ts products h0

/-- The scrape oracle of the C3 witness: the URL `b` fails, all others
succeed at price 5. -/
def scrape_one_bad : String → Option (String × ℚ) := fun u =>
  if u = "b" then none else some ("P", 5)

/-- The three products of the C3 witness; the middle one has the
failing URL. -/
def batch_three : List Product :=
  [⟨1, "a", "P", 1, 0, none⟩, ⟨2, "b", "P", 1, 0, none⟩,
   ⟨3, "c", "P", 1, 0, some 4⟩]

/-- Witness for C3: a batch of three with one failing URL appends
exactly two history rows. -/
theorem one_failing_product_never_aborts_batch_witness :
    batch_three.countP
        (fun p => (scrape_one_bad p.url).isNone) = 1 ∧
      (check_prices true scrape_one_bad (fun _ => true) 0 []
          batch_three).1.length =
        ([] : List HistEntry).length + (batch_three.length - 1) :=
  ⟨by decide,
   (one_failing_product_never_aborts_batch scrape_one_bad (fun _ => true) 0
     [] batch_three (by decide)).2.1⟩

/-- C9: the history ledger is append-only and order-preserving: an
append (with the store reachable, as the History Store contract
assumes) extends the ledger by exactly its row at the end — never
deduplicating, editing or reordering — and appending the prices 10, 9,
11 sequentially for one product yields a ledger of exactly 3 rows in
insertion order whose latest price is 11. -/
theorem history_ledger_append_only :
    (∀ (h : List HistEntry) (pid : Nat) (price : ℚ) (ts : Nat),
      add_price_history true h pid price ts = h ++ [⟨pid, price, ts⟩]) ∧
    (add_price_history true (add_price_history true
        (add_price_history true [] 1 10 0) 1 9 1) 1 11 2).length = 3 ∧
    add_price_history true (add_price_history true
        (add_price_history true [] 1 10 0) 1 9 1) 1 11 2 =
      [⟨1, 10, 0⟩, ⟨1, 9, 1⟩, ⟨1, 11, 2⟩] ∧
    latest (add_price_history true (add_price_history true
        (add_price_history true [] 1 10 0) 1 9 1) 1 11 2) 1 = some 11 :=
  ⟨fun _ _ _ _ => rfl, by decide, by decide, by decide⟩

/-!
## Product table and the add-product flow

`add_product_to_db` (`price_tracker_bot.py` lines 110-131) consults the
products collection for an existing `(user_id, url)` pair and inserts
only when absent, returning the new id or `None`; the compound unique
index of `setup_db_indexes` (lines 69-71) backs this per-user
uniqueness.  `main.py`'s schema (lines 51-58) instead declares
`url TEXT UNIQUE NOT NULL` — a global uniqueness constraint — and the
insert in its `App.add_product` (lines 529-542) catches the resulting
`IntegrityError`, leaving the table unchanged.  `App.add_product` of
the MongoDB variant (lines 605-638) validates the thresholds, scrapes,
inserts the product, and appends the first observation with
`add_price_history`. -/

/-- One document of the `products` collection (one row of the
`products` table). -/
structure DbProduct where
  pid : Nat
  user_id : Nat
  url : String
  name : String
  low_price : ℚ
  high_price : ℚ
  deriving DecidableEq

/-- A fresh id for an inserted product (the source receives an ObjectId
or an AUTOINCREMENT rowid; only its identity matters here). -/
def fresh_pid (rows : List DbProduct) : Nat :=
  rows.length

/-- `add_product_to_db(user_id, url, name, low_price, high_price)` of
the MongoDB variant: reject when this user already tracks this URL,
else insert and return the new id together with the new table. -/
def add_product_to_db (rows : List DbProduct) (u : Nat) (url name : String)
    (low high : ℚ) : Option Nat × List DbProduct :=
  if rows.any (fun r => r.user_id == u && r.url == url) then (none, rows)
  else
    (some (fresh_pid rows),
     rows ++ [⟨fresh_pid rows, u, url, name, low, high⟩])

/-- The products insert of `main.py`: the table carries a global unique
constraint on `url`, so the insert raises `IntegrityError` (caught, the
table left unchanged) whenever any user already tracks the URL. -/
def sqlite_add_product (rows : List DbProduct) (u : Nat) (url name : String)
    (low high : ℚ) : Option Nat × List DbProduct :=
  if rows.any (fun r => r.url == url) then (none, rows)
  else
    (some (fresh_pid rows),
     rows ++ [⟨fresh_pid rows, u, url, name, low, high⟩])

/-- C8 counterexample: in the SQLite variant the URL is globally unique,
so a second, distinct user cannot track a URL user 1 already tracks —
the insert fails and the table is unchanged — refuting the claim's
"two distinct users may each track the same URL successfully" for
`main.py`. -/
theorem distinct_users_same_url_rejected_in_sqlite :
    sqlite_add_product [⟨0, 1, "https://www.amazon.in/p", "X", 1, 0⟩] 2
        "https://www.amazon.in/p" "X" 1 0 =
      (none, [⟨0, 1, "https://www.amazon.in/p", "X", 1, 0⟩]) := by
  decide

/-- C8 (amended): per-user URL uniqueness holds as claimed in the
MongoDB variant — a duplicate `(user, url)` insert fails leaving the
products unchanged, and a second, distinct user can still track the
same URL — while in the SQLite variant of `main.py` the constraint is
global: an insert of an already-tracked URL fails unchanged whichever
user attempts it. -/
theorem url_uniqueness_per_user
    (rows : List DbProduct) (u1 u2 : Nat) (url name : String)
    (low high : ℚ) :
    ((∃ r ∈ rows, r.user_id = u1 ∧ r.url = url) →
      add_product_to_db rows u1 url name low high = (none, rows)) ∧
    (u1 ≠ u2 → (∀ r ∈ rows, r.url = url → r.user_id = u1) →
      add_product_to_db rows u2 url name low high =
        (some (fresh_pid rows),
         rows ++ [⟨fresh_pid rows, u2, url, name, low, high⟩])) ∧
    ((∃ r ∈ rows, r.url = url) →
      sqlite_add_product rows u2 url name low high = (none, rows)) := by
  refine ⟨?_, ?_, ?_⟩
  · intro hex
    unfold add_product_to_db
    rw [if_pos]
    simp only [List.any_eq_true, Bool.and_eq_true, beq_iff_eq]
    obtain ⟨r, hr, h1, h2⟩ := hex
    exact ⟨r, hr, h1, h2⟩
  · intro hne hown
    unfold add_product_to_db
    rw [if_neg]
    simp only [List.any_eq_true, Bool.and_eq_true, beq_iff_eq, not_exists,
      not_and]
    intro r hr hu
    intro hurl
    exact hne ((hown r hr hurl).symm.trans hu)
  · intro hex
    unfold sqlite_add_product
    rw [if_pos]
    simp only [List.any_eq_true, beq_iff_eq]
    obtain ⟨r, hr, h1⟩ := hex
    exact ⟨r, hr, h1⟩

/-- The one-row products table of the C8 witness: user 1 tracks the
URL `u`. -/
def rows_one_user : List DbProduct :=
  [⟨0, 1, "u", "X", 1, 0⟩]

/-- Witness for the amended C8: a duplicate same-user insert fails
leaving the table unchanged. -/
theorem url_uniqueness_per_user_witness :
    (∃ r ∈ rows_one_user, r.user_id = 1 ∧ r.url = "u") ∧
      add_product_to_db rows_one_user 1 "u" "X" 1 0 =
        (none, rows_one_user) :=
  ⟨by decide,
   (url_uniqueness_per_user rows_one_user 1 2 "u" "X" 1 0).1 (by decide)⟩

/-- State of the two persistent collections the add-product flow
touches: the products table and the price-history ledger. -/
structure AppState where
  products : List DbProduct
  history : List HistEntry

/-- `App.add_product` of the MongoDB variant: validate the thresholds
(the low price must be positive; an empty high field means `0.0`),
scrape, reject a falsy name (failed scrape or empty title), insert via
`add_product_to_db` and — when an id came back — append the scraped
price as the first observation.  `avail1` and `avail2` model the two
independent `get_db_client()` calls, one inside `add_product_to_db`
and one inside `add_price_history`. -/
def app_add_product (avail1 avail2 : Bool) (st : AppState) (u : Nat)
    (url : String) (low high : ℚ) (scraped : Option (String × ℚ))
    (ts : Nat) : AppState :=
  if low ≤ 0 then st
  else
    match scraped with
    | none => st
    | some (name, price) =>
      if name = "" then st
      else if avail1 then
        match add_product_to_db st.products u url name low high with
        | (some pid, rows2) =>
          ⟨rows2, add_price_history avail2 st.history pid price ts⟩
        | (none, _) => st
      else st

/-- C10 counterexample: `add_price_history` silently writes nothing when
its own `get_db_client()` call fails, so the add-product flow can
create a product with an empty history: with the product insert's
connection up and the history append's connection down, one product
exists and zero observations do. -/
theorem product_created_without_history_possible :
    (app_add_product true false ⟨[], []⟩ 7 "https://www.amazon.in/item"
        1 0 (some ("Widget", 5)) 0).products.length = 1 ∧
      (app_add_product true false ⟨[], []⟩ 7 "https://www.amazon.in/item"
        1 0 (some ("Widget", 5)) 0).history = [] := by
  exact ⟨by decide, by decide⟩

theorem latest_append_fresh (h : List HistEntry) (pid : Nat) (price : ℚ)
    (ts : Nat) (hf : ∀ e ∈ h, e.product_id ≠ pid) :
    latest (h ++ [⟨pid, price, ts⟩]) pid = some price := by
  unfold latest
  have hfil : h.filter (fun e => e.product_id == pid) = [] := by
    rw [List.filter_eq_nil_iff]
    intro e he
    simp [hf e he]
  rw [List.filter_append, hfil]
  simp

/-- C10 (amended): whenever the history append's database call also
succeeds (in `main.py` both inserts share one connection and
transaction, so this is automatic), every product created through the
add-product path is created together with exactly one initial
observation carrying the scraped price, which is then the product's
latest price. -/
theorem added_product_has_initial_observation
    (st : AppState) (u : Nat) (url name : String)
    (low high price : ℚ) (ts : Nat)
    (hlow : 0 < low) (hname : name ≠ "")
    (hnew : ∀ r ∈ st.products, ¬(r.user_id = u ∧ r.url = url))
    (hfresh : ∀ e ∈ st.history, e.product_id ≠ fresh_pid st.products) :
    (app_add_product true true st u url low high (some (name, price))
        ts).products =
      st.products ++ [⟨fresh_pid st.products, u, url, name, low, high⟩] ∧
    (app_add_product true true st u url low high (some (name, price))
        ts).history =
      st.history ++ [⟨fresh_pid st.products, price, ts⟩] ∧
    latest (app_add_product true true st u url low high
        (some (name, price)) ts).history (fresh_pid st.products) =
      some price := by
  have hins : add_product_to_db st.products u url name low high =
      (some (fresh_pid st.products),
       st.products ++ [⟨fresh_pid st.products, u, url, name, low, high⟩]) := by
    unfold add_product_to_db
    rw [if_neg]
    simp only [List.any_eq_true, Bool.and_eq_true, beq_iff_eq, not_exists,
      not_and]
    intro r hr hu hurl
    exact hnew r hr ⟨hu, hurl⟩
  have hflow : app_add_product true true st u url low high
      (some (name, price)) ts =
      ⟨st.products ++ [⟨fresh_pid st.products, u, url, name, low, high⟩],
       st.history ++ [⟨fresh_pid st.products, price, ts⟩]⟩ := by
    unfold app_add_product
    rw [if_neg (not_le.2 hlow)]
    dsimp only
    rw [if_neg hname, if_pos rfl, hins]
    rfl
  refine ⟨by rw [hflow], by rw [hflow], ?_⟩
  rw [hflow]
  exact latest_append_fresh st.history (fresh_pid st.products) price ts hfresh

/-- Witness for the amended C10: adding a product to an empty state
creates the product and its single initial observation at the scraped
price 5. -/
theorem added_product_has_initial_observation_witness :
    (0 : ℚ) < 1 ∧
      (app_add_product true true ⟨[], []⟩ 1 "u" 1 0 (some ("W", 5))
        0).history = [] ++ [⟨0, 5, 0⟩] :=
  ⟨by norm_num,
   (added_product_has_initial_observation ⟨[], []⟩ 1 "u" "W" 1 0 5 0
     (by norm_num) (by decide) (by simp) (by simp)).2.1⟩

end PriceTracker
